import Mathlib

/-!
Verification development for `rippa.py`, an unattended optical-media
ripping/transcoding pipeline.  The Python source is shallowly embedded:
pure helpers become Lean functions, filesystem-and-subprocess code becomes
explicit state passing over a set of existing paths plus an event trace,
and Python exceptions become `Except` results.  Machine-word arithmetic
(CPython's 64-bit hashing) is done on `Nat` with explicit `% 2^64`.
-/

namespace Rippa

/-! ## Models of Python builtins used by the source -/

/-- CPython's hash modulus for integers: the Mersenne prime `2^61 - 1`. -/
def pyHashModulus : Int := 2 ^ 61 - 1

/-- Model of CPython `hash(n)` for an `int` `n` (platform with 64-bit
`Py_hash_t`): reduce modulo `2^61 - 1` preserving sign, and map the
reserved value `-1` to `-2`.  This is seed-independent in CPython. -/
def pyHashInt (n : Int) : Int :=
  let r : Int := if 0 ≤ n then n % pyHashModulus else -((-n) % pyHashModulus)
  if r = -1 then -2 else r

/-- Interpret a signed 64-bit hash as the unsigned `Py_uhash_t` lane value. -/
def toU64 (i : Int) : Nat := (i % (2 ^ 64 : Int)).toNat

/-- Rotate a 64-bit word left by 31 bits (CPython's `_PyHASH_XXROTATE`). -/
def rotl31 (x : Nat) : Nat := (x % 2 ^ 33) * 2 ^ 31 + x / 2 ^ 33

/-- Model of CPython `hash(tuple(l))` for a tuple of ints (CPython >= 3.8,
64-bit build): the xxHash-style combination with primes
`_PyHASH_XXPRIME_1/2/5`, finalized with the length, the reserved value
`2^64 - 1` mapped to `1546275796`, and the accumulator reinterpreted as a
signed 64-bit integer. -/
def pyHashTuple (l : List Int) : Int :=
  let acc : Nat := l.foldl
    (fun acc it =>
      let lane := toU64 (pyHashInt it)
      let a1 := (acc + lane * 14029467366897019727) % 2 ^ 64
      (rotl31 a1 * 11400714785074694791) % 2 ^ 64)
    2870177450012600261
  let acc2 : Nat := (acc + Nat.xor l.length (Nat.xor 2870177450012600261 3527539)) % 2 ^ 64
  if acc2 = 2 ^ 64 - 1 then 1546275796
  else if acc2 < 2 ^ 63 then (acc2 : Int) else (acc2 : Int) - 2 ^ 64

/-- Model of Python `hex(n)` for `n >= 0`: `"0x"` followed by lowercase
hexadecimal digits. -/
def pyHex (n : Nat) : String := "0x" ++ (Nat.toDigits 16 n).asString

/-- Lines 330-331 of the source: `cdp_hash = str(hex(abs(cdp_hash)))[2:]` —
render the absolute value of a hash in hexadecimal and strip the `0x`
prefix (`str` on a `str` is the identity). -/
def hashHexIdentity (h : Int) : String := (pyHex h.natAbs).drop 2

/-- Split a character list at every character satisfying `p`, dropping the
separators and keeping empty pieces.  (Structural recursion, so it stays
reducible inside the kernel, unlike core's `String.split`.) -/
def splitWhen (p : Char → Bool) : List Char → List (List Char)
  | [] => [[]]
  | c :: rest =>
    let r := splitWhen p rest
    if p c then [] :: r
    else
      match r with
      | [] => [[c]]
      | h :: t => (c :: h) :: t

/-- Model of Python `str.split()` with no separator: split on runs of
whitespace, discarding empty pieces. -/
def pySplitWs (s : String) : List String :=
  ((splitWhen (fun c => c.isWhitespace) s.data).map List.asString).filter
    fun t => !t.isEmpty

/-- Model of Python `s.split("\n")`. -/
def pyLines (s : String) : List String :=
  (splitWhen (fun c => c == '\n') s.data).map List.asString

/-- Python exception kinds distinguished by the source's `try`/`except`
clauses.  `exc` is the plain `Exception(exitcode)` raised by
`execute(..., capture=False)`; `calledProcessError` is what
`subprocess.check_output` raises; the rest are the builtin exceptions the
embedded code paths can raise. -/
inductive Err where
  | exc
  | calledProcessError
  | typeError
  | keyError
  | indexError
  | oserror
  | fileNotFound
  | valueError
  | attrError
  deriving DecidableEq, Repr

deriving instance DecidableEq for Except

/-- Value of a nonempty all-digit character list, else `none`. -/
def digitsToNat? (cs : List Char) : Option Nat :=
  if cs.isEmpty then none
  else if cs.all Char.isDigit then
    some (cs.foldl (fun n c => n * 10 + (c.toNat - 48)) 0)
  else none

/-- Model of Python `int(token)` as an option: an optional minus sign
followed by at least one ASCII digit (the whitespace-, plus- and
underscore-tolerant forms Python also accepts do not occur at the embedded
call sites). -/
def pyIntOpt (s : String) : Option Int :=
  match s.data with
  | '-' :: rest => (digitsToNat? rest).map fun n => -(n : Int)
  | cs => (digitsToNat? cs).map fun n => (n : Int)

/-- Model of Python `int(s)` on a token: `ValueError` when the token is not
an optionally-signed decimal numeral. -/
def pyInt (s : String) : Except Err Int :=
  match pyIntOpt s with
  | some n => .ok n
  | none => .error .valueError

/-- Python slice `l[6:-2]`: elements from index 6 up to, but excluding, the
second-to-last element — i.e. drop the first six elements and the last
two. -/
def pySlice6m2 {α : Type} (l : List α) : List α := ((l.drop 6).dropLast).dropLast

/-! ## `cdparanoia_hash` (source lines 70-79) -/

/-- The `for line in lines` loop of `cdparanoia_hash`: whitespace-split each
line, skip lines that do not have exactly 8 fields, and collect
`int(split[1])` for the rest (a `ValueError` from `int` propagates). -/
def cdparanoiaLengths : List String → Except Err (List Int)
  | [] => .ok []
  | line :: rest =>
    let split := pySplitWs line
    if split.length = 8 then
      match pyInt (split.getD 1 "") with
      | .error e => .error e
      | .ok v => (cdparanoiaLengths rest).map fun vs => v :: vs
    else
      cdparanoiaLengths rest

/-- `cdparanoia_hash` (source lines 70-79): split the probe output on
newlines, slice `[6:-2]`, collect the track lengths, and hash the tuple. -/
def cdparanoia_hash (cdp_str : String) : Except Err Int :=
  (cdparanoiaLengths (pySlice6m2 (pyLines cdp_str))).map pyHashTuple

/-! ## `_wait_for_file_stable` (source lines 166-177)

The method samples `os.path.getsize`, sleeps `wait_time` seconds, samples
again, and raises when the two samples differ.  The sleep is real time and
is not modelled; the two size samples are the function's inputs. -/

def wait_for_file_stable (size1 size2 : Nat) : Except Err Unit :=
  if size1 ≠ size2 then .error .exc else .ok ()

/-! ## Filesystem and subprocess model

Paths are lists of components mirroring the segments of the f-string path
templates in the source (the opaque roots `wip_root`, `out_root` and the
drive device string each count as one component).  The filesystem is the
set of existing nodes, as a list of paths.  External commands are recorded
in an event trace; an `Env` fixes each command's success, its captured
output, and the files the extraction tools produce. -/

abbrev Path := List String

abbrev FS := List Path

/-- `"/"`-join of the components, as the Python f-strings build them. -/
def pathStr (p : Path) : String := String.intercalate "/" p

/-- Entries in the trace of externally visible actions: a subprocess argv,
or the license-key refresh. -/
inductive Event where
  | exec (cmd : List String)
  | keyRefresh
  deriving DecidableEq, Repr

/-- Result of running an embedded code path: the events it emitted, the
filesystem it left behind (also meaningful when an exception escaped), and
its return value or exception. -/
structure Out (α : Type) where
  trace : List Event
  fs : FS
  res : Except Err α

/-- Prepend already-emitted events to a result. -/
def withTr {α : Type} (tr : List Event) (o : Out α) : Out α :=
  ⟨tr ++ o.trace, o.fs, o.res⟩

/-- Behaviour of the external world: which commands succeed, what a
captured command prints (after `.strip()`), which files `makemkvcon`
leaves in its output directory, which directories `abcde` creates in the
current working directory, which paths a successfully mounted disc
exposes, and the two `os.path.getsize` samples the stability check reads
for each path. -/
structure Env where
  ok : List String → Bool
  out : List String → String
  mkvFiles : List String
  abcdeDirs : List String
  discContents : List Path
  sz1 : Path → Nat
  sz2 : Path → Nat

/-- Add a node if absent.  Models `os.makedirs(p, exist_ok=True)` (every
`makedirs` call in the source passes `exist_ok=True`; implicit parent
creation is not tracked) and also file creation by an external tool. -/
def fsInsert (fs : FS) (p : Path) : FS := if p ∈ fs then fs else p :: fs

/-- `dropPre pre p = some rest` when `p = pre ++ rest`. -/
def dropPre {α : Type} [DecidableEq α] : List α → List α → Option (List α)
  | [], p => some p
  | _ :: _, [] => none
  | a :: xs, b :: ys => if a = b then dropPre xs ys else none

/-- Whether `pre` is an initial segment of `p` (i.e. `p` is `pre` itself or
lies inside the subtree rooted at `pre`). -/
def hasPre (pre p : Path) : Bool := (dropPre pre p).isSome

/-- Model of `os.listdir(dir)`: the names of the immediate children of
`dir`.  (The real call returns them in unspecified order; this model's
order follows the filesystem list.) -/
def listdir (fs : FS) (dir : Path) : List String :=
  fs.filterMap fun p =>
    match dropPre dir p with
    | some [e] => some e
    | _ => none

/-- `os.listdir` raising `FileNotFoundError` when the directory itself does
not exist. -/
def listdirE (fs : FS) (dir : Path) : Except Err (List String) :=
  if dir ∈ fs then .ok (listdir fs dir) else .error .fileNotFound

/-- Model of `shutil.rmtree(p, ignore_errors=True)`: drop `p` and its
subtree; no error if absent. -/
def rmtreeIgnore (fs : FS) (p : Path) : FS := fs.filter fun q => !(hasPre p q)

/-- Model of `os.rmdir(p)`: `OSError` when `p` still has children or does
not exist; otherwise remove the node. -/
def rmdirE (fs : FS) (p : Path) : Except Err FS :=
  if fs.any fun q => hasPre p q && !(q == p) then .error .oserror
  else if p ∈ fs then .ok (fs.filter fun q => !(q == p)) else .error .oserror

/-- Model of `shutil.move(src, dst)` where `dst` names the final location
(for a move into an existing directory the call sites append the entry
name): rebase `src` and its subtree onto `dst`. -/
def moveTree (fs : FS) (src dst : Path) : FS :=
  fs.map fun q =>
    match dropPre src q with
    | some rest => dst ++ rest
    | none => q

/-- Python `str.endswith`. -/
def pyEndsWith (s suffix : String) : Bool := List.isSuffixOf suffix.data s.data

/-! ## `trysudo`, `eject`, `mount` (source lines 82-106)

`execute(cmd, capture=False)` raises a plain `Exception(exitcode)` on a
non-zero exit; `execute(cmd, capture=True)` uses `subprocess.check_output`
and hence raises `CalledProcessError`. -/

/-- `execute(cmd, capture=True)` (source lines 24-30). -/
def execCap (env : Env) (cmd : List String) (fs : FS) : Out String :=
  ⟨[.exec cmd], fs, if env.ok cmd then .ok (env.out cmd) else .error .calledProcessError⟩

/-- `trysudo` (source lines 82-89): run the command; if it raises, log and
retry exactly once with a `"sudo"` prefix; a failure of the retried
command propagates. -/
def trysudo (env : Env) (cmd : List String) (fs : FS) : Out Unit :=
  if env.ok cmd then ⟨[.exec cmd], fs, .ok ()⟩
  else
    let c2 := "sudo" :: cmd
    ⟨[.exec cmd, .exec c2], fs, if env.ok c2 then .ok () else .error .exc⟩

/-- `eject` (source lines 92-93). -/
def eject (env : Env) (drive : String) (fs : FS) : Out Unit :=
  trysudo env ["eject", "-F", drive] fs

/-- `mount` (source lines 99-102): `makedirs` the mount point, then
`trysudo mount`.  A successful mount exposes the disc's contents beneath
the mount point.  (The module-level `_mounts` list only feeds the exit
hook and is not tracked.) -/
def mount (env : Env) (drive : String) (mntP : Path) (mntStr : String) (fs : FS) : Out Unit :=
  let fs1 := fsInsert fs mntP
  let t := trysudo env ["mount", drive, mntStr] fs1
  match t.res with
  | .ok _ => ⟨t.trace, (env.discContents.map fun c => mntP ++ c) ++ t.fs, .ok ()⟩
  | .error e => ⟨t.trace, t.fs, .error e⟩

/-! ## `parse_blkid_params` / `parse_blkid` (source lines 47-66) -/

/-- ASCII approximation of the regex class `\w`. -/
def isWordChar (c : Char) : Bool := c.isAlphanum || c == '_'

/-- One attempted match of the pattern `(\w+)="([^"]+)"` anchored at the
start of the character list; on success also returns the remainder after
the match. -/
def matchParam (cs : List Char) : Option (String × String × List Char) :=
  let w := cs.takeWhile isWordChar
  let r1 := cs.dropWhile isWordChar
  if w.isEmpty then none
  else
    match r1 with
    | '=' :: '"' :: r2 =>
      let v := r2.takeWhile fun c => !(c == '"')
      let r3 := r2.dropWhile fun c => !(c == '"')
      if v.isEmpty then none
      else
        match r3 with
        | '"' :: r4 => some (w.asString, v.asString, r4)
        | _ => none
    | _ => none

/-- `re.finditer` over the pattern: scan left to right, consuming a match
where one starts and advancing one character otherwise.  Fuelled by the
input length (each step consumes at least one character). -/
def scanParamsAux : Nat → List Char → List (String × String)
  | 0, _ => []
  | _ + 1, [] => []
  | fuel + 1, c :: rest =>
    match matchParam (c :: rest) with
    | some (k, v, r4) => (k, v) :: scanParamsAux fuel r4
    | none => scanParamsAux fuel rest

/-- Python `dict` assignment `d[k] = v`: overwrite an existing key in
place, else append. -/
def dictSet {β : Type} (d : List (String × β)) (k : String) (v : β) : List (String × β) :=
  if d.any fun kv => kv.1 == k then d.map fun kv => if kv.1 == k then (k, v) else kv
  else d ++ [(k, v)]

/-- Python `dict` lookup returning `none` where `d[k]` would raise
`KeyError`. -/
def dictGet {β : Type} (d : List (String × β)) (k : String) : Option β :=
  (d.find? fun kv => kv.1 == k).map Prod.snd

/-- `parse_blkid_params` (source lines 47-53). -/
def parse_blkid_params (params_str : String) : List (String × String) :=
  (scanParamsAux (params_str.data.length + 1) params_str.data).foldl
    (fun d kv => dictSet d kv.1 kv.2) []

/-- Split on a (nonempty) separator string, fuelled by the input length
(each step consumes at least one character), modeling Python
`s.split(sep)`. -/
def splitOnSepAux (sep : List Char) : Nat → List Char → List (List Char)
  | _, [] => [[]]
  | 0, cs => [cs]
  | fuel + 1, c :: rest =>
    match dropPre sep (c :: rest) with
    | some rest2 => [] :: splitOnSepAux sep fuel rest2
    | none =>
      match splitOnSepAux sep fuel rest with
      | [] => [[c]]
      | h :: t => (c :: h) :: t

/-- Model of Python `s.split(sep)` for a nonempty separator. -/
def pySplitOnStr (s sep : String) : List String :=
  (splitOnSepAux sep.data (s.data.length + 1) s.data).map List.asString

/-- The line loop of `parse_blkid`: skip empty lines; split each line on
`": "`; `parts[1]` raises `IndexError` when absent. -/
def parse_blkid_aux :
    List String → List (String × List (String × String)) →
    Except Err (List (String × List (String × String)))
  | [], acc => .ok acc
  | line :: rest, acc =>
    if line.isEmpty then parse_blkid_aux rest acc
    else
      let parts := pySplitOnStr line ": "
      match parts.get? 1 with
      | none => .error .indexError
      | some params_str =>
        parse_blkid_aux rest (dictSet acc (parts.getD 0 "") (parse_blkid_params params_str))

/-- `parse_blkid` (source lines 56-66). -/
def parse_blkid (blkid_str : String) :
    Except Err (List (String × List (String × String))) :=
  parse_blkid_aux (pyLines blkid_str) []

/-! ## `RipThread` (source lines 258-434) -/

/-- The constructor arguments of `RipThread` that its methods read. -/
structure RipCfg where
  drive : String
  wip_root : String
  out_root : String
  skip_eject : Bool
  makemkv_update_key : Bool

/-- Which return path a rip method took: `skipped` for the early returns
guarded by existing output, `ripped` for the fall-through end of the
method.  (The Python methods return `None` either way; the tag records
the return site.) -/
inductive RipOutcome where
  | skipped
  | ripped
  deriving DecidableEq, Repr

/-- Value of the digit run found by `re.search(r"\d+", s)`, or `none` when
the search fails (in which case `.group(0)` raises). -/
def firstNatRun : List Char → Option Nat
  | [] => none
  | c :: rest =>
    if c.isDigit then
      some (((c :: rest).takeWhile Char.isDigit).foldl (fun n d => n * 10 + (d.toNat - 48)) 0)
    else firstNatRun rest

namespace RipThread

/-- `RipThread.rip_dvd` (source lines 277-327).  The `drive` parameter is
declared by the source but never read — the body uses `self.drive`.
On a successful `makemkvcon` run the tool leaves `env.mkvFiles` in the
rip-in-progress directory; those entries are then moved into the wip
directory and the rip directory is removed with a bare `os.rmdir`. -/
def rip_dvd (env : Env) (cfg : RipCfg) (blkid_params : List (String × String))
    (drive : String) (fs : FS) : Out RipOutcome :=
  match dictGet blkid_params "LABEL", dictGet blkid_params "UUID" with
  | none, _ => ⟨[], fs, .error .keyError⟩
  | some _, none => ⟨[], fs, .error .keyError⟩
  | some label, some uuid =>
    let disc_name := label ++ "-" ++ uuid
    let wip_rip_path : Path := [cfg.wip_root, "dvd_rip", disc_name]
    let wip_path : Path := [cfg.wip_root, "dvd", disc_name]
    let out_path : Path := [cfg.out_root, "dvd", disc_name]
    if out_path ∈ fs then ⟨[], fs, .ok .skipped⟩
    else if wip_path ∈ fs then ⟨[], fs, .ok .skipped⟩
    else
      -- updateMakeMkvKey is imported from the makemkvkey module, which is
      -- not part of this repository's source tree.
      -- Modelled from the spec: "optionally trigger an external
      -- license-key refresh first" — recorded as a trace event.
      let tr0 : List Event := if cfg.makemkv_update_key then [.keyRefresh] else []
      let fs1 := fsInsert (rmtreeIgnore fs wip_rip_path) wip_rip_path
      match firstNatRun cfg.drive.data with
      | none => ⟨tr0, fs1, .error .attrError⟩
      | some drive_id =>
        let cmd := ["makemkvcon", "mkv", "disc:" ++ toString drive_id, "all",
                    pathStr wip_rip_path]
        if env.ok cmd then
          let fs2 := (env.mkvFiles.map fun f => wip_rip_path ++ [f]) ++ fs1
          let fs3 := fsInsert fs2 wip_path
          let entries := listdir fs3 wip_rip_path
          let fs4 := entries.foldl
            (fun acc e => moveTree acc (wip_rip_path ++ [e]) (wip_path ++ [e])) fs3
          match rmdirE fs4 wip_rip_path with
          | .error e => ⟨tr0 ++ [.exec cmd], fs4, .error e⟩
          | .ok fs5 => ⟨tr0 ++ [.exec cmd], fs5, .ok .ripped⟩
        else ⟨tr0 ++ [.exec cmd], fs1, .error .exc⟩

/-- `RipThread.rip_redbook` (source lines 329-358).  On success `abcde`
creates `env.abcdeDirs` inside the shared `wip/redbook` directory (the
source `chdir`s there); the first `os.listdir` entry is then renamed to
`out/redbook/<albumName>-<hash>`. -/
def rip_redbook (env : Env) (cfg : RipCfg) (cdp_str : String) (fs : FS) :
    Out RipOutcome :=
  match cdparanoia_hash cdp_str with
  | .error e => ⟨[], fs, .error e⟩
  | .ok h =>
    let cdp_hash := hashHexIdentity h
    let out_dir_path : Path := [cfg.out_root, "redbook"]
    let fs1 := fsInsert fs out_dir_path
    if (listdir fs1 out_dir_path).any fun folder => pyEndsWith folder cdp_hash then
      ⟨[], fs1, .ok .skipped⟩
    else
      let wip_dir_path : Path := [cfg.wip_root, "redbook"]
      let fs2 := fsInsert fs1 wip_dir_path
      let cmd := ["abcde", "-d", cfg.drive, "-o", "flac", "-B", "-N"]
      if env.ok cmd then
        let fs3 := (env.abcdeDirs.map fun d => wip_dir_path ++ [d]) ++ fs2
        match (listdir fs3 wip_dir_path).get? 0 with
        | none => ⟨[.exec cmd], fs3, .error .indexError⟩
        | some album_name =>
          let out_path := out_dir_path ++ [album_name ++ "-" ++ cdp_hash]
          let fs4 := moveTree fs3 (wip_dir_path ++ [album_name]) out_path
          ⟨[.exec cmd], fs4, .ok .ripped⟩
      else ⟨[.exec cmd], fs2, .error .exc⟩

/-- `RipThread.rip_data_disc` (source lines 360-383). -/
def rip_data_disc (env : Env) (cfg : RipCfg) (blkid_params : List (String × String))
    (fs : FS) : Out RipOutcome :=
  match dictGet blkid_params "LABEL", dictGet blkid_params "UUID" with
  | none, _ => ⟨[], fs, .error .keyError⟩
  | some _, none => ⟨[], fs, .error .keyError⟩
  | some label, some uuid =>
    let file_name := label ++ "-" ++ uuid ++ ".iso"
    let wip_dir_path : Path := [cfg.wip_root, "iso"]
    let out_dir_path : Path := [cfg.out_root, "iso"]
    let wip_path := wip_dir_path ++ [file_name]
    let out_path := out_dir_path ++ [file_name]
    if out_path ∈ fs then ⟨[], fs, .ok .skipped⟩
    else
      let fs1 := fsInsert (fsInsert fs wip_dir_path) out_dir_path
      let cmd := ["dd", "if=" ++ cfg.drive, "of=" ++ pathStr wip_path, "status=progress"]
      if env.ok cmd then
        let fs2 := fsInsert fs1 wip_path
        ⟨[.exec cmd], moveTree fs2 wip_path out_path, .ok .ripped⟩
      else ⟨[.exec cmd], fs1, .error .exc⟩

/-- Number of positional parameters `RipThread.rip_dvd` requires after
`self` (line 277: `blkid_params` and `drive`). -/
def rip_dvd_paramCount : Nat := 2

/-- Number of positional arguments `loop_step` passes to `self.rip_dvd`
(line 428: only `blkid_params`). -/
def loop_rip_dvd_argCount : Nat := 1

/-- The DVD dispatch exactly as the source performs it: Python's calling
convention raises `TypeError` before entering the callee's body whenever
the argument count does not match the parameter count, which is the case
at line 428. -/
def rip_dvd_dispatch (env : Env) (cfg : RipCfg)
    (blkid_params : List (String × String)) (fs : FS) : Out RipOutcome :=
  if loop_rip_dvd_argCount = rip_dvd_paramCount then
    rip_dvd env cfg blkid_params cfg.drive fs
  else ⟨[], fs, .error .typeError⟩

/-- The tail of `RipThread.loop_step` after the `cdparanoia` `try` block
(source lines 407-434): the empty/absent-metadata early return, blkid
parsing, the mount attempt (whose exceptions are all caught), the
`VIDEO_TS` test, the kind dispatch, and the final eject (not guarded by
any `try`). -/
def loop_step_rest (env : Env) (cfg : RipCfg) (blkid_str : Option String)
    (fs : FS) : Out Unit :=
  match blkid_str with
  | none => ⟨[], fs, .ok ()⟩
  | some s =>
    if s.length = 0 then ⟨[], fs, .ok ()⟩
    else
      match parse_blkid s with
      | .error e => ⟨[], fs, .error e⟩
      | .ok blkid =>
        match dictGet blkid cfg.drive with
        | none => ⟨[], fs, .error .keyError⟩
        | some blkid_params =>
          let mntP : Path := [".", "mnt" ++ cfg.drive]
          let m := mount env cfg.drive mntP ("./mnt" ++ cfg.drive) fs
          let fs2 := m.fs
          let dispatch :=
            if (mntP ++ ["VIDEO_TS"]) ∈ fs2 then
              rip_dvd_dispatch env cfg blkid_params fs2
            else rip_data_disc env cfg blkid_params fs2
          match dispatch.res with
          | .error e => ⟨m.trace ++ dispatch.trace, dispatch.fs, .error e⟩
          | .ok _ =>
            if cfg.skip_eject then ⟨m.trace ++ dispatch.trace, dispatch.fs, .ok ()⟩
            else
              let ej := eject env cfg.drive dispatch.fs
              ⟨m.trace ++ dispatch.trace ++ ej.trace, ej.fs, ej.res⟩

/-- `RipThread.loop_step` (source lines 388-434).  `blkid` is queried first
inside a `try` that catches every exception; the `cdparanoia` probe and
the whole Redbook branch (including its eject) sit in a `try` that
catches only `subprocess.CalledProcessError`; all remaining work happens
after that block. -/
def loop_step (env : Env) (cfg : RipCfg) (fs : FS) : Out Unit :=
  let bl := execCap env ["blkid", cfg.drive] fs
  let blkid_str : Option String :=
    match bl.res with
    | .ok s => some s
    | .error _ => none
  let cd := execCap env ["cdparanoia", "-sQ"] fs
  let tr1 := bl.trace ++ cd.trace
  match cd.res with
  | .ok cdp_text =>
    let r := rip_redbook env cfg cdp_text fs
    match r.res with
    | .ok _ =>
      if cfg.skip_eject then ⟨tr1 ++ r.trace, r.fs, .ok ()⟩
      else
        let ej := eject env cfg.drive r.fs
        match ej.res with
        | .ok _ => ⟨tr1 ++ r.trace ++ ej.trace, ej.fs, .ok ()⟩
        | .error .calledProcessError =>
          withTr (tr1 ++ r.trace ++ ej.trace) (loop_step_rest env cfg blkid_str ej.fs)
        | .error e2 => ⟨tr1 ++ r.trace ++ ej.trace, ej.fs, .error e2⟩
    | .error .calledProcessError =>
      withTr (tr1 ++ r.trace) (loop_step_rest env cfg blkid_str r.fs)
    | .error e2 => ⟨tr1 ++ r.trace, r.fs, .error e2⟩
  | .error .calledProcessError => withTr tr1 (loop_step_rest env cfg blkid_str fs)
  | .error e2 => ⟨tr1, fs, .error e2⟩

end RipThread

/-! ## `TranscodeThread` (source lines 141-255) -/

/-- The constructor arguments of `TranscodeThread` that its methods read
(`ffmpeg_args` after the `None` default has been resolved). -/
structure TrCfg where
  wip_root : String
  out_root : String
  ffmpeg_args : List String

/-- The default `ffmpeg_args` installed when the constructor receives
`None` (source lines 149-161). -/
def defaultFfmpegArgs : List String :=
  ["-c:v", "libx264", "-crf", "18", "-map", "0", "-c:a", "copy", "-c:s", "copy"]

/-- The stem of `os.path.splitext(name)` for a plain file name: cut at the
last dot, unless every character before that dot is a dot. -/
def pySplitextStem (name : String) : String :=
  match name.data.reverse.findIdx? fun c => c == '.' with
  | none => name
  | some revIdx =>
    let sepIdx := name.data.length - 1 - revIdx
    if (name.data.take sepIdx).all fun c => c == '.' then name
    else ⟨name.data.take sepIdx⟩

namespace TranscodeThread

/-- `TranscodeThread.transcode_file` (source lines 179-201): stability
check, `makedirs` of the destination, the `ffmpeg` invocation producing
`<stem>.mp4`, then removal of the raw input file.  `os.path.getsize` on a
missing path raises. -/
def transcode_file (env : Env) (cfg : TrCfg) (file_path : Path) (out_path : Path)
    (fs : FS) : Out Unit :=
  if file_path ∈ fs then
    match wait_for_file_stable (env.sz1 file_path) (env.sz2 file_path) with
    | .error e => ⟨[], fs, .error e⟩
    | .ok _ =>
      let fs1 := fsInsert fs out_path
      let file_name := (file_path.getLast?).getD ""
      let out_file_path := out_path ++ [pySplitextStem file_name ++ ".mp4"]
      let cmd := ["ffmpeg", "-i", pathStr file_path] ++ cfg.ffmpeg_args
        ++ [pathStr out_file_path]
      if env.ok cmd then
        ⟨[.exec cmd], (fsInsert fs1 out_file_path).filter fun q => !(q == file_path),
         .ok ()⟩
      else ⟨[.exec cmd], fs1, .error .exc⟩
  else ⟨[], fs, .error .fileNotFound⟩

/-- The first `for file in wip_files` loop of `transcode_disc` (source
lines 215-223): each `transcode_file` call is wrapped in
`try/except Exception`, so per-file failures are logged and swallowed. -/
def transcodeWipLoop (env : Env) (cfg : TrCfg) (wip_path wip_transcode_path : Path) :
    List String → FS → Out Unit
  | [], fs => ⟨[], fs, .ok ()⟩
  | f :: rest, fs =>
    let t := transcode_file env cfg (wip_path ++ [f]) wip_transcode_path fs
    let r := transcodeWipLoop env cfg wip_path wip_transcode_path rest t.fs
    ⟨t.trace ++ r.trace, r.fs, r.res⟩

/-- The second `for file in wip_transcode_files` loop of `transcode_disc`
(source lines 236-240): stability check then `shutil.move` into the output
directory, with no `try` around either, so the first failure aborts the
remaining files. -/
def transcodeMoveLoop (env : Env) (wip_transcode_path out_path : Path) :
    List String → FS → Out Unit
  | [], fs => ⟨[], fs, .ok ()⟩
  | f :: rest, fs =>
    let p := wip_transcode_path ++ [f]
    if p ∈ fs then
      match wait_for_file_stable (env.sz1 p) (env.sz2 p) with
      | .error e => ⟨[], fs, .error e⟩
      | .ok _ => transcodeMoveLoop env wip_transcode_path out_path rest
          (moveTree fs p (out_path ++ [f]))
    else ⟨[], fs, .error .fileNotFound⟩

/-- `TranscodeThread.transcode_disc` (source lines 203-249).  Only the two
`os.rmdir` calls are individually guarded (`except OSError: pass`); the
`os.listdir` of the transcode directory and the whole move loop are not
guarded, so their exceptions propagate. -/
def transcode_disc (env : Env) (cfg : TrCfg) (disc_name : String) (fs : FS) :
    Out Unit :=
  let wip_path : Path := [cfg.wip_root, "dvd", disc_name]
  let wip_transcode_path : Path := [cfg.wip_root, "dvd_transcode", disc_name]
  let out_path : Path := [cfg.out_root, "dvd", disc_name]
  match listdirE fs wip_path with
  | .error e => ⟨[], fs, .error e⟩
  | .ok wip_files =>
    let l1 := transcodeWipLoop env cfg wip_path wip_transcode_path wip_files fs
    let fsA := match rmdirE l1.fs wip_path with
      | .ok fs' => fs'
      | .error _ => l1.fs
    match listdirE fsA wip_transcode_path with
    | .error e => ⟨l1.trace, fsA, .error e⟩
    | .ok wip_transcode_files =>
      let fsB := fsInsert fsA out_path
      let mv := transcodeMoveLoop env wip_transcode_path out_path wip_transcode_files fsB
      match mv.res with
      | .error e => ⟨l1.trace ++ mv.trace, mv.fs, .error e⟩
      | .ok _ =>
        let fsC := match rmdirE mv.fs wip_transcode_path with
          | .ok fs' => fs'
          | .error _ => mv.fs
        ⟨l1.trace ++ mv.trace, fsC, .ok ()⟩

/-- The `for disc_name in os.listdir(...)` loop of
`TranscodeThread.loop_step` (source lines 251-255): `transcode_disc` is
called with no surrounding `try`, so one disc's exception aborts the
remaining discs of the cycle. -/
def transcodeDiscsLoop (env : Env) (cfg : TrCfg) : List String → FS → Out Unit
  | [], fs => ⟨[], fs, .ok ()⟩
  | d :: rest, fs =>
    let t := transcode_disc env cfg d fs
    match t.res with
    | .error e => ⟨t.trace, t.fs, .error e⟩
    | .ok _ =>
      let r := transcodeDiscsLoop env cfg rest t.fs
      ⟨t.trace ++ r.trace, r.fs, r.res⟩

/-- `TranscodeThread.loop_step` (source lines 251-255).  The constructor's
`makedirs` guarantees `wip/dvd` exists, so the plain `listdir` model is
used for it. -/
def loop_step (env : Env) (cfg : TrCfg) (fs : FS) : Out Unit :=
  transcodeDiscsLoop env cfg (listdir fs [cfg.wip_root, "dvd"]) fs

end TranscodeThread

/-! ## Concrete instances used to witness and refute the claims -/

/-- An environment in which every external command succeeds, `makemkvcon`
produces one title file, `abcde` produces one album directory, the disc
exposes nothing when mounted, and every size sample is `0`. -/
def envOk : Env :=
  ⟨fun _ => true, fun _ => "", ["title_t00.mkv"], ["Album"], [], fun _ => 0, fun _ => 0⟩

/-- A `RipThread` configured on `/dev/sr0` with roots `wip` and `out`,
ejection enabled, key refresh disabled. -/
def cfgR : RipCfg := ⟨"/dev/sr0", "wip", "out", false, false⟩

/-- Same as `cfgR` but with `--skip-eject`. -/
def cfgRSkip : RipCfg := ⟨"/dev/sr0", "wip", "out", true, false⟩

/-- Block-device metadata for a DVD-like disc. -/
def paramsMovie : List (String × String) := [("LABEL", "MOVIE"), ("UUID", "ABCD-1234")]

/-- A `blkid` output line for `/dev/sr0`. -/
def blkidMovie : String := "/dev/sr0: LABEL=\"MOVIE\" UUID=\"ABCD-1234\""

/-- Environment for the DVD branch: the audio probe fails, `blkid` reports
`blkidMovie`, and the mounted disc exposes a `VIDEO_TS` directory. -/
def envDvd : Env :=
  ⟨fun c => !(c == ["cdparanoia", "-sQ"]), fun _ => blkidMovie, [], [],
   [["VIDEO_TS"]], fun _ => 0, fun _ => 0⟩

/-- Environment in which the audio probe fails and both the plain and the
`sudo` eject fail; everything else succeeds and the disc is a data disc. -/
def envEjectFail : Env :=
  ⟨fun c => !(c == ["cdparanoia", "-sQ"] || c == ["eject", "-F", "/dev/sr0"]
      || c == ["sudo", "eject", "-F", "/dev/sr0"]),
   fun _ => blkidMovie, [], [], [], fun _ => 0, fun _ => 0⟩

/-- Environment in which the audio probe fails and both the plain and the
`sudo` mount fail; everything else succeeds. -/
def envMountFail : Env :=
  ⟨fun c => !(c == ["cdparanoia", "-sQ"] || c == ["mount", "/dev/sr0", "./mnt/dev/sr0"]
      || c == ["sudo", "mount", "/dev/sr0", "./mnt/dev/sr0"]),
   fun _ => blkidMovie, [], [], [], fun _ => 0, fun _ => 0⟩

/-- Environment in which every external command fails (no disc in the
drive: both probes fail). -/
def envNoDisc : Env :=
  ⟨fun _ => false, fun _ => "", [], [], [], fun _ => 0, fun _ => 0⟩

/-- Transcode environment: everything succeeds, but the second size sample
of the transcoded file `wip/dvd_transcode/A/x.mp4` differs from the first,
so its stability re-check fails. -/
def envTrUnstable : Env :=
  ⟨fun _ => true, fun _ => "", [], [], [], fun _ => 0,
   fun p => if p = ["wip", "dvd_transcode", "A", "x.mp4"] then 1 else 0⟩

/-- A `TranscodeThread` on roots `wip` and `out` with the default
`ffmpeg` arguments. -/
def cfgT : TrCfg := ⟨"wip", "out", defaultFfmpegArgs⟩

/-- Staged discs `A` (one raw file `x.mkv`) and `B` (one raw file
`y.mkv`). -/
def fsTwoDiscs : FS :=
  [["wip", "dvd", "A"], ["wip", "dvd", "A", "x.mkv"],
   ["wip", "dvd", "B"], ["wip", "dvd", "B", "y.mkv"]]

/-- A nine-line audio-table probe output: six header lines, two data rows
with track lengths `100` and `111`, and a trailing `TOTAL` line.  The
second data row is the second-to-last line of the output. -/
def cdp9 : String :=
  "h1\nh2\nh3\nh4\nh5\nh6\n1. 100 [00:01.33] 0 [00:00.00] no no 2\n2. 111 [00:01.48] 100 [00:01.33] no no 2\nTOTAL 211 [00:02.81]"

/-! ## Helper lemmas -/

theorem fsInsert_mem {fs : FS} {p q : Path} (h : p ∈ fs) : p ∈ fsInsert fs q := by
  unfold fsInsert
  split
  · exact h
  · exact List.mem_cons_of_mem _ h

theorem mem_fsInsert {fs : FS} {p q : Path} : p ∈ fsInsert fs q ↔ p = q ∨ p ∈ fs := by
  unfold fsInsert
  split
  · rename_i hq
    constructor
    · exact fun h => Or.inr h
    · rintro (rfl | h)
      · exact hq
      · exact h
  · simp [List.mem_cons]

theorem dropPre_append (p r : Path) : dropPre p (p ++ r) = some r := by
  induction p with
  | nil => rfl
  | cons a xs ih => simp [dropPre, ih]

theorem dropPre_self (p : Path) : dropPre p p = some [] := by
  have h := dropPre_append p []
  simpa using h

theorem listdir_append (fs1 fs2 : FS) (dir : Path) :
    listdir (fs1 ++ fs2) dir = listdir fs1 dir ++ listdir fs2 dir := by
  unfold listdir
  exact List.filterMap_append _ _ _

theorem listdir_single_child (dir : Path) (e : String) :
    listdir [dir ++ [e]] dir = [e] := by
  unfold listdir
  simp [List.filterMap_cons, dropPre_append]

theorem moveTree_mem_self {fs : FS} {src dst : Path} (h : src ∈ fs) :
    dst ∈ moveTree fs src dst := by
  unfold moveTree
  have h2 := List.mem_map_of_mem (fun q =>
      match dropPre src q with
      | some rest => dst ++ rest
      | none => q) h
  simpa [dropPre_self] using h2

/-- `transcode_file` never removes any path other than its input file. -/
theorem transcode_file_mem_preserved (env : Env) (cfg : TrCfg) (fp op : Path)
    (fs : FS) (p : Path) (hmem : p ∈ fs) (hne : p ≠ fp) :
    p ∈ (TranscodeThread.transcode_file env cfg fp op fs).fs := by
  unfold TranscodeThread.transcode_file
  split
  · cases hw : wait_for_file_stable (env.sz1 fp) (env.sz2 fp) with
    | error e => simpa [hw] using hmem
    | ok _ =>
      simp only [hw]
      split
      · simp only [List.mem_filter, fsInsert_mem (fsInsert_mem hmem), true_and]
        simp [hne]
      · exact fsInsert_mem hmem
  · exact hmem

/-- One unfolding step of the guarded per-file transcode loop. -/
theorem transcodeWipLoop_cons (env : Env) (cfg : TrCfg) (wip wipT : Path)
    (f : String) (rest : List String) (fs : FS) :
    TranscodeThread.transcodeWipLoop env cfg wip wipT (f :: rest) fs =
      ⟨(TranscodeThread.transcode_file env cfg (wip ++ [f]) wipT fs).trace
          ++ (TranscodeThread.transcodeWipLoop env cfg wip wipT rest
              (TranscodeThread.transcode_file env cfg (wip ++ [f]) wipT fs).fs).trace,
        (TranscodeThread.transcodeWipLoop env cfg wip wipT rest
          (TranscodeThread.transcode_file env cfg (wip ++ [f]) wipT fs).fs).fs,
        (TranscodeThread.transcodeWipLoop env cfg wip wipT rest
          (TranscodeThread.transcode_file env cfg (wip ++ [f]) wipT fs).fs).res⟩ := rfl

/-- When its input exists, is stable, and `ffmpeg` succeeds,
`transcode_file` runs exactly the `ffmpeg` command. -/
theorem transcode_file_runs (env : Env) (cfg : TrCfg) (fp op : Path) (fs : FS)
    (hmem : fp ∈ fs) (hst : env.sz1 fp = env.sz2 fp)
    (hok : env.ok (["ffmpeg", "-i", pathStr fp] ++ cfg.ffmpeg_args
        ++ [pathStr (op ++ [pySplitextStem ((fp.getLast?).getD "") ++ ".mp4"])]) = true) :
    (TranscodeThread.transcode_file env cfg fp op fs).trace
      = [.exec (["ffmpeg", "-i", pathStr fp] ++ cfg.ffmpeg_args
          ++ [pathStr (op ++ [pySplitextStem ((fp.getLast?).getD "") ++ ".mp4"])])] := by
  unfold TranscodeThread.transcode_file
  simp only [List.cons_append, List.nil_append] at hok
  simp [hmem, wait_for_file_stable, hst, hok]

/-- `cdparanoiaLengths` computes, on success, exactly the `filterMap` that
keeps the 8-field rows and reads field index 1. -/
theorem cdparanoiaLengths_ok (rows : List String) (vs : List Int)
    (h : cdparanoiaLengths rows = .ok vs) :
    vs = rows.filterMap fun line =>
      if (pySplitWs line).length = 8 then pyIntOpt ((pySplitWs line).getD 1 "")
      else none := by
  induction rows generalizing vs with
  | nil =>
    simp [cdparanoiaLengths] at h
    simp [h.symm]
  | cons line rest ih =>
    rw [cdparanoiaLengths] at h
    by_cases h8 : (pySplitWs line).length = 8
    · rw [if_pos h8] at h
      cases hp : pyInt ((pySplitWs line).getD 1 "") with
      | error e => rw [hp] at h; cases h
      | ok v =>
        rw [hp] at h
        cases hr : cdparanoiaLengths rest with
        | error e => rw [hr] at h; cases h
        | ok vs' =>
          rw [hr] at h
          simp [Except.map] at h
          have hto : pyIntOpt ((pySplitWs line).getD 1 "") = some v := by
            unfold pyInt at hp
            cases hq : pyIntOpt ((pySplitWs line).getD 1 "") with
            | none => rw [hq] at hp; cases hp
            | some w => rw [hq] at hp; cases hp; rfl
          rw [List.filterMap_cons, if_pos h8, hto, ← h, ih vs' hr]
    · rw [if_neg h8] at h
      rw [List.filterMap_cons, if_neg h8]
      exact ih vs h

/-- The slice `[6:-2]` keeps exactly the lines from index 6 of the list
with its final two elements removed. -/
theorem pySlice6m2_eq {α : Type} (l : List α) :
    pySlice6m2 l = (l.take (l.length - 2)).drop 6 := by
  unfold pySlice6m2
  rw [List.dropLast_eq_take, List.dropLast_eq_take, List.take_take,
    List.drop_take, List.length_take, List.length_drop]
  congr 1
  omega

/-! ## The claims -/

/-- C6: for every file path, the stability check samples the file size,
sleeps for the interval, samples again, and succeeds exactly when the two
size samples are equal; whenever the two samples differ it signals failure
(the file is treated as still being written).  `wait_for_file_stable`
receives the two size samples taken around the sleep. -/
theorem claim_C6 (size1 size2 : Nat) :
    (wait_for_file_stable size1 size2 = .ok () ↔ size1 = size2) ∧
    (size1 ≠ size2 → wait_for_file_stable size1 size2 = .error .exc) := by
  constructor
  · unfold wait_for_file_stable
    split <;> simp_all
  · intro h
    simp [wait_for_file_stable, h]

theorem claim_C6_witness :
    wait_for_file_stable 7 7 = .ok () ∧ wait_for_file_stable 7 9 = .error .exc :=
  ⟨(claim_C6 7 7).1.mpr rfl, (claim_C6 7 9).2 (by decide)⟩

set_option maxRecDepth 40000 in
/-- C10: for the fixed track-length sequence `[240000, 180500, 300200]`,
the Redbook identity equals the lowercase hexadecimal rendering — with
sign and the `0x` base prefix stripped — of the absolute value of the
order-sensitive tuple hash, repeated computations agree (the identity is a
pure function of the lengths, and CPython's int/tuple hashing is
seed-independent), the concrete value is `"a1522a25367bcc"` (matching
CPython), and reordering the lengths changes the identity. -/
theorem claim_C10 :
    hashHexIdentity (pyHashTuple [240000, 180500, 300200])
      = (pyHex (pyHashTuple [240000, 180500, 300200]).natAbs).drop 2 ∧
    hashHexIdentity (pyHashTuple [240000, 180500, 300200])
      = hashHexIdentity (pyHashTuple [240000, 180500, 300200]) ∧
    hashHexIdentity (pyHashTuple [240000, 180500, 300200]) = "a1522a25367bcc" ∧
    hashHexIdentity (pyHashTuple [180500, 240000, 300200]) ≠ "a1522a25367bcc" := by
  refine ⟨rfl, rfl, by decide, by decide⟩

set_option maxRecDepth 40000 in
/-- C9, counterexample: the claim reads the data rows as "lines 7 through
the second-to-last line", but the slice `[6:-2]` excludes the
second-to-last line.  On `cdp9` (nine lines whose second-to-last line is
an 8-field data row with length `111`) the source hashes only `[100]`,
while hashing the rows of lines 7 through the second-to-last would give
`[100, 111]`, a different hash. -/
theorem claim_C9_counterexample :
    cdparanoia_hash cdp9 = .ok (pyHashTuple [100]) ∧
    cdparanoiaLengths (((pyLines cdp9).drop 6).dropLast) = .ok [100, 111] ∧
    cdparanoia_hash cdp9 ≠ .ok (pyHashTuple [100, 111]) := by
  refine ⟨by decide, by decide, by decide⟩

/-- C9, amended: the track-length hash is computed over exactly the data
rows spanning lines 7 through the third-to-last line (the slice `[6:-2]`
excludes the final two lines); each row contributes only if it has exactly
8 whitespace-separated fields, and the value taken from each contributing
row is the field at index 1. -/
theorem claim_C9_amended (cdp_str : String) (vs : List Int)
    (h : cdparanoiaLengths (pySlice6m2 (pyLines cdp_str)) = .ok vs) :
    cdparanoia_hash cdp_str = .ok (pyHashTuple vs) ∧
    pySlice6m2 (pyLines cdp_str)
      = ((pyLines cdp_str).take ((pyLines cdp_str).length - 2)).drop 6 ∧
    vs = (pySlice6m2 (pyLines cdp_str)).filterMap fun line =>
      if (pySplitWs line).length = 8 then pyIntOpt ((pySplitWs line).getD 1 "")
      else none := by
  refine ⟨?_, pySlice6m2_eq _, cdparanoiaLengths_ok _ _ h⟩
  unfold cdparanoia_hash
  rw [h]
  rfl

/-- C1: for every disc whose identity is already present under the output
tree (`out/dvd/<identity>` for a DVD, `out/iso/<identity>.iso` for a data
disc, a folder ending in the hash under `out/redbook` for a Redbook disc),
invoking the kind-specific rip dispatch again returns without performing
any external extraction call (the trace is empty) and leaves the
filesystem state for that identity unchanged (in the Redbook case the only
possible change is the `makedirs` of the `out/redbook` directory itself,
which carries no identity; every other path's membership is preserved). -/
theorem claim_C1 :
    (∀ env cfg params label uuid fs,
      dictGet params "LABEL" = some label → dictGet params "UUID" = some uuid →
      [cfg.out_root, "dvd", label ++ "-" ++ uuid] ∈ fs →
      RipThread.rip_dvd env cfg params cfg.drive fs = ⟨[], fs, .ok .skipped⟩) ∧
    (∀ env cfg params label uuid fs,
      dictGet params "LABEL" = some label → dictGet params "UUID" = some uuid →
      [cfg.out_root, "iso", label ++ "-" ++ uuid ++ ".iso"] ∈ fs →
      RipThread.rip_data_disc env cfg params fs = ⟨[], fs, .ok .skipped⟩) ∧
    (∀ env cfg cdp h fs,
      cdparanoia_hash cdp = .ok h →
      ((listdir (fsInsert fs [cfg.out_root, "redbook"]) [cfg.out_root, "redbook"]).any
        fun folder => pyEndsWith folder (hashHexIdentity h)) = true →
      RipThread.rip_redbook env cfg cdp fs
        = ⟨[], fsInsert fs [cfg.out_root, "redbook"], .ok .skipped⟩ ∧
      ∀ p : Path, p ≠ [cfg.out_root, "redbook"] →
        (p ∈ fsInsert fs [cfg.out_root, "redbook"] ↔ p ∈ fs)) := by
  refine ⟨?_, ?_, ?_⟩
  · intro env cfg params label uuid fs h1 h2 h3
    simp [RipThread.rip_dvd, h1, h2, h3]
  · intro env cfg params label uuid fs h1 h2 h3
    simp [RipThread.rip_data_disc, h1, h2, h3]
  · intro env cfg cdp h fs hh hmatch
    constructor
    · simp [RipThread.rip_redbook, hh, hmatch]
    · intro p hp
      rw [mem_fsInsert]
      simp [hp]

set_option maxRecDepth 40000 in
theorem claim_C1_witness :
    RipThread.rip_dvd envOk cfgR paramsMovie cfgR.drive [["out", "dvd", "MOVIE-ABCD-1234"]]
      = ⟨[], [["out", "dvd", "MOVIE-ABCD-1234"]], .ok .skipped⟩ ∧
    RipThread.rip_data_disc envOk cfgR paramsMovie [["out", "iso", "MOVIE-ABCD-1234.iso"]]
      = ⟨[], [["out", "iso", "MOVIE-ABCD-1234.iso"]], .ok .skipped⟩ ∧
    RipThread.rip_redbook envOk cfgR "" [["out", "redbook", "Album-4fa9d65e2cba1c7b"]]
      = ⟨[], fsInsert [["out", "redbook", "Album-4fa9d65e2cba1c7b"]] ["out", "redbook"],
          .ok .skipped⟩ :=
  ⟨claim_C1.1 envOk cfgR paramsMovie "MOVIE" "ABCD-1234" _ (by decide) (by decide)
      (by decide),
   claim_C1.2.1 envOk cfgR paramsMovie "MOVIE" "ABCD-1234" _ (by decide) (by decide)
      (by decide),
   (claim_C1.2.2 envOk cfgR "" (pyHashTuple []) _ (by decide) (by decide)).1⟩

set_option maxRecDepth 40000 in
/-- C3, counterexample: with only the rip-in-progress directory
`wip/dvd_rip/MOVIE-ABCD-1234` present (no output, no staged directory),
`rip_dvd` does NOT return skipped: it deletes and recreates that
directory, invokes the extraction tool, and finishes the rip — the final
filesystem no longer contains the rip-in-progress directory at all. -/
theorem claim_C3_counterexample :
    ["wip", "dvd_rip", "MOVIE-ABCD-1234"]
        ∈ ([["wip", "dvd_rip", "MOVIE-ABCD-1234"]] : FS) ∧
    (RipThread.rip_dvd envOk cfgR paramsMovie cfgR.drive
        [["wip", "dvd_rip", "MOVIE-ABCD-1234"]]).res = .ok .ripped ∧
    (RipThread.rip_dvd envOk cfgR paramsMovie cfgR.drive
        [["wip", "dvd_rip", "MOVIE-ABCD-1234"]]).trace
      = [.exec ["makemkvcon", "mkv", "disc:0", "all", "wip/dvd_rip/MOVIE-ABCD-1234"]] ∧
    (RipThread.rip_dvd envOk cfgR paramsMovie cfgR.drive
        [["wip", "dvd_rip", "MOVIE-ABCD-1234"]]).fs
      = [["wip", "dvd", "MOVIE-ABCD-1234"],
         ["wip", "dvd", "MOVIE-ABCD-1234", "title_t00.mkv"]] := by
  refine ⟨by decide, by decide, by decide, by decide⟩

/-- C3, amended: for every classified disc whose identity already has a
STAGED directory (`wip/dvd/<identity>`) on disk, the DVD rip dispatch
returns skipped without invoking extraction and without modifying any
directory; an existing raw rip-in-progress directory (`wip/dvd_rip`) is
not consulted by the guard — it is deleted and the rip proceeds (see the
counterexample), so only output/staged presence prevents a re-rip. -/
theorem claim_C3_amended (env : Env) (cfg : RipCfg)
    (params : List (String × String)) (label uuid : String) (fs : FS)
    (h1 : dictGet params "LABEL" = some label)
    (h2 : dictGet params "UUID" = some uuid)
    (h3 : [cfg.out_root, "dvd", label ++ "-" ++ uuid] ∉ fs)
    (h4 : [cfg.wip_root, "dvd", label ++ "-" ++ uuid] ∈ fs) :
    RipThread.rip_dvd env cfg params cfg.drive fs = ⟨[], fs, .ok .skipped⟩ := by
  simp [RipThread.rip_dvd, h1, h2, h3, h4]

theorem claim_C3_amended_witness :
    RipThread.rip_dvd envOk cfgR paramsMovie cfgR.drive [["wip", "dvd", "MOVIE-ABCD-1234"]]
      = ⟨[], [["wip", "dvd", "MOVIE-ABCD-1234"]], .ok .skipped⟩ :=
  claim_C3_amended envOk cfgR paramsMovie "MOVIE" "ABCD-1234" _ (by decide) (by decide)
    (by decide) (by decide)

set_option maxRecDepth 40000 in
/-- C7, counterexample: a successful Redbook extraction of a disc with an
empty track table (identity `4fa9d65e2cba1c7b`) on an empty filesystem
renames the produced `Album` directory to
`out/redbook/Album-4fa9d65e2cba1c7b` — under the OUTPUT root — and no
`Album-4fa9d65e2cba1c7b` entry is created under the staging root
(`wip/redbook`), contrary to the claimed destination
`staged/redbook/<albumName>-<identity>`. -/
theorem claim_C7_counterexample :
    (RipThread.rip_redbook envOk cfgR "" []).res = .ok .ripped ∧
    ["out", "redbook", "Album-4fa9d65e2cba1c7b"]
      ∈ (RipThread.rip_redbook envOk cfgR "" []).fs ∧
    ["wip", "redbook", "Album-4fa9d65e2cba1c7b"]
      ∉ (RipThread.rip_redbook envOk cfgR "" []).fs := by
  refine ⟨by decide, by decide, by decide⟩

/-- C7, amended: after a successful Redbook extraction, the single output
subdirectory the external tool produced is renamed to
`<outRoot>/redbook/<albumName>-<identity>` — under the output tree, not
the staged (wip) area. -/
theorem claim_C7_amended (env : Env) (cfg : RipCfg) (cdp : String) (h : Int)
    (d : String) (fs : FS)
    (hh : cdparanoia_hash cdp = .ok h)
    (hnomatch : ((listdir (fsInsert fs [cfg.out_root, "redbook"])
        [cfg.out_root, "redbook"]).any
      fun folder => pyEndsWith folder (hashHexIdentity h)) = false)
    (hab : env.ok ["abcde", "-d", cfg.drive, "-o", "flac", "-B", "-N"] = true)
    (hdirs : env.abcdeDirs = [d])
    (hempty : listdir (fsInsert (fsInsert fs [cfg.out_root, "redbook"])
        [cfg.wip_root, "redbook"]) [cfg.wip_root, "redbook"] = []) :
    (RipThread.rip_redbook env cfg cdp fs).res = .ok .ripped ∧
    [cfg.out_root, "redbook", d ++ "-" ++ hashHexIdentity h]
      ∈ (RipThread.rip_redbook env cfg cdp fs).fs := by
  unfold RipThread.rip_redbook
  rw [hh]
  have hlist : listdir ([[cfg.wip_root, "redbook"] ++ [d]]
        ++ fsInsert (fsInsert fs [cfg.out_root, "redbook"]) [cfg.wip_root, "redbook"])
      [cfg.wip_root, "redbook"] = [d] := by
    rw [listdir_append, listdir_single_child, hempty, List.append_nil]
  simp only [hnomatch, Bool.false_eq_true, if_false, hab, if_true, hdirs, List.map_cons,
    List.map_nil, hlist, List.get?_cons_zero]
  constructor
  · trivial
  · exact moveTree_mem_self (List.mem_cons_self _ _)

set_option maxRecDepth 40000 in
theorem claim_C7_amended_witness :
    (RipThread.rip_redbook envOk cfgR "" []).res = .ok .ripped ∧
    ["out", "redbook", "Album-" ++ hashHexIdentity (pyHashTuple [])]
      ∈ (RipThread.rip_redbook envOk cfgR "" []).fs :=
  claim_C7_amended envOk cfgR "" (pyHashTuple []) "Album" [] (by decide) (by decide)
    (by decide) (by decide) (by decide)

set_option maxRecDepth 40000 in
theorem claim_C9_amended_witness :
    cdparanoia_hash cdp9 = .ok (pyHashTuple [100]) ∧
    pySlice6m2 (pyLines cdp9)
      = ((pyLines cdp9).take ((pyLines cdp9).length - 2)).drop 6 ∧
    [(100 : Int)] = (pySlice6m2 (pyLines cdp9)).filterMap fun line =>
      if (pySplitWs line).length = 8 then pyIntOpt ((pySplitWs line).getD 1 "")
      else none :=
  claim_C9_amended cdp9 [100] (by decide)

set_option maxRecDepth 40000 in
/-- C4, counterexample: a poll cycle in which the audio probe succeeds (a
Redbook disc is ripped and the cycle ends normally) still performs the
block-device metadata query — and performs it first: the very first event
of the cycle's trace is the `blkid` invocation.  This refutes "the
block-device metadata query is performed only if the audio probe fails"
and the claimed probe order. -/
theorem claim_C4_counterexample :
    (RipThread.loop_step envOk cfgRSkip []).trace.head?
      = some (.exec ["blkid", "/dev/sr0"]) ∧
    envOk.ok ["cdparanoia", "-sQ"] = true ∧
    (RipThread.loop_step envOk cfgRSkip []).res = .ok () := by
  refine ⟨by decide, by decide, by decide⟩

/-- C4, amended: in every poll cycle the block-device metadata query is
executed first, unconditionally; the audio-table probe is executed next
and its result is acted on first; and if the audio probe fails and the
metadata result is empty or absent, the cycle concludes no disc is present
and performs no further action (no further command, no filesystem change,
normal return). -/
theorem claim_C4_amended :
    (∀ env cfg fs, (RipThread.loop_step env cfg fs).trace.head?
        = some (.exec ["blkid", cfg.drive])) ∧
    (∀ env cfg fs, env.ok ["cdparanoia", "-sQ"] = false →
      (env.ok ["blkid", cfg.drive] = false ∨ (env.out ["blkid", cfg.drive]).length = 0) →
      RipThread.loop_step env cfg fs
        = ⟨[.exec ["blkid", cfg.drive], .exec ["cdparanoia", "-sQ"]], fs, .ok ()⟩) := by
  constructor
  · intro env cfg fs
    unfold RipThread.loop_step
    simp only [execCap, withTr]
    repeat' split
    all_goals simp
  · intro env cfg fs hcd hor
    unfold RipThread.loop_step
    rcases hor with hbl | hlen
    · simp [execCap, hcd, hbl, RipThread.loop_step_rest, withTr]
    · by_cases hbl : env.ok ["blkid", cfg.drive] = true
      · simp [execCap, hcd, hbl, hlen, RipThread.loop_step_rest, withTr]
      · simp [execCap, hcd, hbl, RipThread.loop_step_rest, withTr]

theorem claim_C4_amended_witness :
    (RipThread.loop_step envOk cfgRSkip []).trace.head?
      = some (.exec ["blkid", "/dev/sr0"]) ∧
    RipThread.loop_step envNoDisc cfgR []
      = ⟨[.exec ["blkid", "/dev/sr0"], .exec ["cdparanoia", "-sQ"]], [], .ok ()⟩ :=
  ⟨claim_C4_amended.1 envOk cfgRSkip [],
   claim_C4_amended.2 envNoDisc cfgR [] (by decide) (Or.inl (by decide))⟩

/-- C2: for every poll iteration in which the mounted disc exposes a
`VIDEO_TS` directory, the DVD dispatch fails with an error before
performing any idempotency check or invoking any extraction command:
`loop_step` (line 428) passes `rip_dvd` one positional argument although
`rip_dvd` (line 277) requires both `blkid_params` and `drive`, so the call
itself raises `TypeError`; the cycle's trace contains no extraction
command (`makemkvcon`, `dd` or `abcde`). -/
theorem claim_C2 (env : Env) (cfg : RipCfg) (fs : FS)
    (hcd : env.ok ["cdparanoia", "-sQ"] = false)
    (hbl : env.ok ["blkid", cfg.drive] = true)
    (hlen : (env.out ["blkid", cfg.drive]).length ≠ 0)
    (d : List (String × List (String × String)))
    (params : List (String × String))
    (hparse : parse_blkid (env.out ["blkid", cfg.drive]) = .ok d)
    (hdict : dictGet d cfg.drive = some params)
    (hmnt : env.ok ["mount", cfg.drive, "./mnt" ++ cfg.drive] = true)
    (hvid : ["VIDEO_TS"] ∈ env.discContents) :
    (RipThread.loop_step env cfg fs).res = .error .typeError ∧
    (∀ c, Event.exec c ∈ (RipThread.loop_step env cfg fs).trace →
      c.head? ≠ some "makemkvcon" ∧ c.head? ≠ some "dd" ∧ c.head? ≠ some "abcde") ∧
    RipThread.loop_rip_dvd_argCount ≠ RipThread.rip_dvd_paramCount := by
  have hstep : RipThread.loop_step env cfg fs
      = ⟨[.exec ["blkid", cfg.drive], .exec ["cdparanoia", "-sQ"],
          .exec ["mount", cfg.drive, "./mnt" ++ cfg.drive]],
         (env.discContents.map fun c => [".", "mnt" ++ cfg.drive] ++ c)
           ++ fsInsert fs [".", "mnt" ++ cfg.drive], .error .typeError⟩ := by
    unfold RipThread.loop_step RipThread.loop_step_rest
    simp [execCap, hcd, hbl, hlen, hparse, hdict, mount, trysudo, hmnt, withTr,
      RipThread.rip_dvd_dispatch, RipThread.rip_dvd_paramCount,
      RipThread.loop_rip_dvd_argCount, hvid]
  rw [hstep]
  refine ⟨rfl, ?_, by decide⟩
  intro c hc
  simp only [List.mem_cons, List.not_mem_nil, or_false] at hc
  rcases hc with h | h | h <;> cases h <;> simp

theorem claim_C2_witness :
    (RipThread.loop_step envDvd cfgR []).res = .error .typeError ∧
    (∀ c, Event.exec c ∈ (RipThread.loop_step envDvd cfgR []).trace →
      c.head? ≠ some "makemkvcon" ∧ c.head? ≠ some "dd" ∧ c.head? ≠ some "abcde") ∧
    RipThread.loop_rip_dvd_argCount ≠ RipThread.rip_dvd_paramCount :=
  claim_C2 envDvd cfgR [] (by decide) (by decide) (by decide)
    [("/dev/sr0", [("LABEL", "MOVIE"), ("UUID", "ABCD-1234")])]
    [("LABEL", "MOVIE"), ("UUID", "ABCD-1234")]
    (by decide) (by decide) (by decide) (by decide)

/-- C8, counterexample: with a disc whose identity is already ripped, an
eject whose plain and `sudo` invocations both fail makes the whole rip
iteration raise (`loop_step` line 434 has no `try` around `eject`), so the
second failure is not merely logged: it escapes the loop body — and since
`LoopThread.run` has no handler either, the rip thread dies.  The trace
shows the eject was retried exactly once with the `sudo` prefix. -/
theorem claim_C8_counterexample :
    (RipThread.loop_step envEjectFail cfgR [["out", "iso", "MOVIE-ABCD-1234.iso"]]).res
      = .error .exc ∧
    (RipThread.loop_step envEjectFail cfgR [["out", "iso", "MOVIE-ABCD-1234.iso"]]).trace
      = [.exec ["blkid", "/dev/sr0"], .exec ["cdparanoia", "-sQ"],
         .exec ["mount", "/dev/sr0", "./mnt/dev/sr0"],
         .exec ["eject", "-F", "/dev/sr0"], .exec ["sudo", "eject", "-F", "/dev/sr0"]] := by
  refine ⟨by decide, by decide⟩

/-- C8, amended: every privileged operation (mount, unmount, eject) is run
unprivileged first and retried exactly once with the elevation prefix on
failure; a failure of the second attempt propagates as an exception rather
than being logged.  The rip loop survives a mount double-failure (the call
is inside `try/except`) and continues the cycle, but an eject
double-failure escapes the loop body (see the counterexample). -/
theorem claim_C8_amended :
    (∀ env cmd fs, env.ok cmd = true →
      trysudo env cmd fs = ⟨[.exec cmd], fs, .ok ()⟩) ∧
    (∀ env cmd fs, env.ok cmd = false →
      (trysudo env cmd fs).trace = [.exec cmd, .exec ("sudo" :: cmd)] ∧
      ((trysudo env cmd fs).res = .ok () ↔ env.ok ("sudo" :: cmd) = true)) ∧
    (∀ env cfg fs d params label uuid,
      env.ok ["cdparanoia", "-sQ"] = false →
      env.ok ["blkid", cfg.drive] = true →
      (env.out ["blkid", cfg.drive]).length ≠ 0 →
      parse_blkid (env.out ["blkid", cfg.drive]) = .ok d →
      dictGet d cfg.drive = some params →
      env.ok ["mount", cfg.drive, "./mnt" ++ cfg.drive] = false →
      env.ok ["sudo", "mount", cfg.drive, "./mnt" ++ cfg.drive] = false →
      [".", "mnt" ++ cfg.drive, "VIDEO_TS"] ∉ fsInsert fs [".", "mnt" ++ cfg.drive] →
      dictGet params "LABEL" = some label →
      dictGet params "UUID" = some uuid →
      [cfg.out_root, "iso", label ++ "-" ++ uuid ++ ".iso"] ∈ fs →
      cfg.skip_eject = true →
      (RipThread.loop_step env cfg fs).res = .ok ()) := by
  refine ⟨?_, ?_, ?_⟩
  · intro env cmd fs h
    simp [trysudo, h]
  · intro env cmd fs h
    constructor
    · simp [trysudo, h]
    · by_cases h2 : env.ok ("sudo" :: cmd) = true <;> simp [trysudo, h, h2]
  · intro env cfg fs d params label uuid hcd hbl hlen hparse hdict hmnt hsmnt hnovid
      hlab huuid hout hskip
    unfold RipThread.loop_step RipThread.loop_step_rest
    simp [execCap, hcd, hbl, hlen, hparse, hdict, mount, trysudo, hmnt, hsmnt, withTr,
      hnovid, RipThread.rip_data_disc, hlab, huuid, fsInsert_mem hout, hskip]

theorem claim_C8_amended_witness :
    trysudo envOk ["eject", "-F", "/dev/sr0"] []
      = ⟨[.exec ["eject", "-F", "/dev/sr0"]], [], .ok ()⟩ ∧
    ((trysudo envNoDisc ["eject", "-F", "/dev/sr0"] []).trace
        = [.exec ["eject", "-F", "/dev/sr0"], .exec ["sudo", "eject", "-F", "/dev/sr0"]] ∧
      ((trysudo envNoDisc ["eject", "-F", "/dev/sr0"] []).res = .ok ()
        ↔ envNoDisc.ok ["sudo", "eject", "-F", "/dev/sr0"] = true)) ∧
    (RipThread.loop_step envMountFail cfgRSkip
        [["out", "iso", "MOVIE-ABCD-1234.iso"]]).res = .ok () :=
  ⟨claim_C8_amended.1 envOk ["eject", "-F", "/dev/sr0"] [] (by decide),
   claim_C8_amended.2.1 envNoDisc ["eject", "-F", "/dev/sr0"] [] (by decide),
   claim_C8_amended.2.2 envMountFail cfgRSkip [["out", "iso", "MOVIE-ABCD-1234.iso"]]
     [("/dev/sr0", [("LABEL", "MOVIE"), ("UUID", "ABCD-1234")])]
     [("LABEL", "MOVIE"), ("UUID", "ABCD-1234")] "MOVIE" "ABCD-1234"
     (by decide) (by decide) (by decide) (by decide) (by decide) (by decide) (by decide)
     (by decide) (by decide) (by decide) (by decide) (by decide)⟩

/-- C5, counterexample: disc `A`'s transcoded file fails its second
stability check (a failure while processing one file), and this aborts the
whole transcode poll cycle: sibling disc `B`'s ready raw file `y.mkv` is
never transcoded in that cycle (the only command executed is `A`'s
`ffmpeg`), because neither the move loop inside `transcode_disc` nor the
per-disc loop in `loop_step` is fault-isolated. -/
theorem claim_C5_counterexample :
    (TranscodeThread.loop_step envTrUnstable cfgT fsTwoDiscs).res = .error .exc ∧
    ["wip", "dvd", "B", "y.mkv"] ∈ (TranscodeThread.loop_step envTrUnstable cfgT fsTwoDiscs).fs ∧
    ["out", "dvd", "B"] ∉ (TranscodeThread.loop_step envTrUnstable cfgT fsTwoDiscs).fs ∧
    (TranscodeThread.loop_step envTrUnstable cfgT fsTwoDiscs).trace
      = [.exec (["ffmpeg", "-i", "wip/dvd/A/x.mkv"] ++ defaultFfmpegArgs
          ++ ["wip/dvd_transcode/A/x.mp4"])] := by
  refine ⟨by decide, by decide, by decide, by decide⟩

/-- C5, amended: within the first per-file loop of `transcode_disc` every
`transcode_file` call is individually guarded, so a failure while
transcoding one file never aborts the loop (it always returns normally),
and a later file whose input is present, stable and whose `ffmpeg` run
succeeds is still transcoded whatever happened to an earlier file; but
failures outside that loop (the stability re-check/move of transcoded
files, or listing a missing transcode directory) propagate and abort the
remaining files and the remaining sibling disc directories of the cycle
(see the counterexample). -/
theorem claim_C5_amended :
    (∀ env cfg wip wipT files fs,
      (TranscodeThread.transcodeWipLoop env cfg wip wipT files fs).res = .ok ()) ∧
    (∀ env cfg wip wipT f1 f2 fs,
      wip ++ [f2] ≠ wip ++ [f1] →
      wip ++ [f2] ∈ fs →
      env.sz1 (wip ++ [f2]) = env.sz2 (wip ++ [f2]) →
      env.ok (["ffmpeg", "-i", pathStr (wip ++ [f2])] ++ cfg.ffmpeg_args
          ++ [pathStr (wipT ++ [pySplitextStem f2 ++ ".mp4"])]) = true →
      Event.exec (["ffmpeg", "-i", pathStr (wip ++ [f2])] ++ cfg.ffmpeg_args
          ++ [pathStr (wipT ++ [pySplitextStem f2 ++ ".mp4"])])
        ∈ (TranscodeThread.transcodeWipLoop env cfg wip wipT [f1, f2] fs).trace) := by
  constructor
  · intro env cfg wip wipT files fs
    induction files generalizing fs with
    | nil => rfl
    | cons f rest ih => simp [TranscodeThread.transcodeWipLoop, ih]
  · intro env cfg wip wipT f1 f2 fs hne hmem hstable hffmpeg
    have hmem2 : wip ++ [f2]
        ∈ (TranscodeThread.transcode_file env cfg (wip ++ [f1]) wipT fs).fs :=
      transcode_file_mem_preserved env cfg (wip ++ [f1]) wipT fs (wip ++ [f2]) hmem hne
    have hok : env.ok (["ffmpeg", "-i", pathStr (wip ++ [f2])] ++ cfg.ffmpeg_args
        ++ [pathStr (wipT ++ [pySplitextStem (((wip ++ [f2]).getLast?).getD "")
            ++ ".mp4"])]) = true := by
      simpa [List.getLast?_concat] using hffmpeg
    have htr := transcode_file_runs env cfg (wip ++ [f2]) wipT
      (TranscodeThread.transcode_file env cfg (wip ++ [f1]) wipT fs).fs hmem2 hstable hok
    simp only [List.getLast?_concat, Option.getD_some] at htr
    rw [transcodeWipLoop_cons, transcodeWipLoop_cons]
    simp only [List.mem_append, htr]
    right
    left
    simp

theorem claim_C5_amended_witness :
    (TranscodeThread.transcodeWipLoop envTrUnstable cfgT ["wip", "dvd", "A"]
        ["wip", "dvd_transcode", "A"] ["x.mkv"] fsTwoDiscs).res = .ok () ∧
    Event.exec (["ffmpeg", "-i", pathStr (["wip", "dvd", "B"] ++ ["y.mkv"])]
        ++ cfgT.ffmpeg_args
        ++ [pathStr (["wip", "dvd_transcode", "B"] ++ [pySplitextStem "y.mkv" ++ ".mp4"])])
      ∈ (TranscodeThread.transcodeWipLoop envTrUnstable cfgT ["wip", "dvd", "B"]
          ["wip", "dvd_transcode", "B"] ["z.mkv", "y.mkv"] fsTwoDiscs).trace :=
  ⟨claim_C5_amended.1 envTrUnstable cfgT ["wip", "dvd", "A"]
      ["wip", "dvd_transcode", "A"] ["x.mkv"] fsTwoDiscs,
   claim_C5_amended.2 envTrUnstable cfgT ["wip", "dvd", "B"]
      ["wip", "dvd_transcode", "B"] "z.mkv" "y.mkv" fsTwoDiscs
      (by decide) (by decide) (by decide) (by decide)⟩

end Rippa
